import Mathlib

/-!
# Verification of the adaptive content-strategy learning engine

Shallow embedding, in Lean 4, of the multi-armed-bandit learning subsystem
of the `x-marketing-engine` repository, together with proofs and refutations
of the specification's claims about it.

JavaScript numbers are modelled by `ℚ` wherever the source only performs
field arithmetic, comparisons and `Math.round`-style rounding (scorer,
Beta-parameter updates, state management, verification, recommendation
structure), and by `ℝ` for the two stochastic samplers, whose source uses
`Math.log`, `Math.sqrt`, `Math.cos` and `Math.pow` (transcendental
functions).  `Math.random()` is modelled by an explicit stream
`u : ℕ → ℝ` of draws, consumed left to right exactly as the source consumes
`Math.random()` calls; unbounded `while` loops are modelled with an explicit
fuel parameter returning `Option` (`none` = the loop has not terminated
within the fuel).
-/

/-- JavaScript `Math.round`: rounds half away from zero toward `+∞`,
i.e. `Math.round x = ⌊x + 1/2⌋`. -/
def jround (x : ℚ) : ℤ := ⌊x + 1/2⌋

/-- `Math.round(x * 100) / 100`, the 2-decimal rounding used by
`calculateXAS` and `verify`. -/
def round2 (x : ℚ) : ℚ := (jround (x * 100) : ℚ) / 100

/-- `Math.round(x * 1000) / 1000`, the 3-decimal rounding used by
`updateBeta` and `recommend`. -/
def round3 (x : ℚ) : ℚ := (jround (x * 1000) : ℚ) / 1000

/-- `Math.round(x * 10000) / 10000`, the 4-decimal rounding used for the
rate fields of `calculateXAS`. -/
def round4 (x : ℚ) : ℚ := (jround (x * 10000) : ℚ) / 10000

namespace Engine

/-- `interface BetaParams` of `analyze_hypothesis.ts`: one bandit arm's
Beta-distribution belief state. -/
structure BetaParams where
  alpha : ℚ
  beta : ℚ
  trials : ℤ
  mean : ℚ
  deriving DecidableEq

/-- `initBetaParams()`: the lazily-created prior
`{ alpha: 0.3, beta: 0.7, trials: 0, mean: 0.3 }`. -/
def initBetaParams : BetaParams :=
  { alpha := 3/10, beta := 7/10, trials := 0, mean := 3/10 }

/-- `updateBeta(params, score, maxScore)` from `analyze_hypothesis.ts`:

```ts
const normalizedScore = Math.min(1.0, Math.max(0.0, score / Math.max(maxScore, 1)));
const newAlpha = params.alpha + normalizedScore;
const newBeta = params.beta + (1 - normalizedScore);
const newTrials = params.trials + 1;
const newMean = newAlpha / (newAlpha + newBeta);
return { alpha: Math.round(newAlpha * 1000) / 1000,
         beta:  Math.round(newBeta * 1000) / 1000,
         trials: newTrials,
         mean:  Math.round(newMean * 1000) / 1000 };
```
-/
def updateBeta (params : BetaParams) (score maxScore : ℚ) : BetaParams :=
  let normalizedScore := min 1 (max 0 (score / max maxScore 1))
  let newAlpha := params.alpha + normalizedScore
  let newBeta := params.beta + (1 - normalizedScore)
  let newTrials := params.trials + 1
  let newMean := newAlpha / (newAlpha + newBeta)
  { alpha := round3 newAlpha
    beta := round3 newBeta
    trials := newTrials
    mean := round3 newMean }

/-- `interface PostMetrics` (the `collected_at` string is irrelevant to the
scorer and omitted).  `bookmarks`, `profile_clicks` and `url_clicks` are
optional in the source (`?:`), modelled with `Option`. -/
structure PostMetrics where
  impressions : ℤ
  likes : ℤ
  retweets : ℤ
  replies : ℤ
  bookmarks : Option ℤ
  profile_clicks : Option ℤ
  url_clicks : Option ℤ
  deriving DecidableEq

/-- `interface XASResult`. -/
structure XASResult where
  raw_xas : ℚ
  normalized_xas : ℚ
  engagement_rate : ℚ
  amplification_rate : ℚ
  conversation_rate : ℚ
  save_rate : ℚ
  growth_score : ℚ
  deriving DecidableEq

/-- `calculateXAS(metrics)` from `analyze_hypothesis.ts`.  The `|| 0`
guards on the required numeric fields are identities on numbers and are
dropped; on the optional fields they are `Option.getD 0`.
`impressions` is floored to 1 by `Math.max(metrics.impressions, 1)`. -/
def calculateXAS (metrics : PostMetrics) : XASResult :=
  let replies : ℚ := metrics.replies
  let bookmarks : ℚ := metrics.bookmarks.getD 0
  let retweets : ℚ := metrics.retweets
  let likes : ℚ := metrics.likes
  let profile_clicks : ℚ := metrics.profile_clicks.getD 0
  let url_clicks : ℚ := metrics.url_clicks.getD 0
  let impressions : ℚ := max (metrics.impressions : ℚ) 1
  let raw_xas :=
    replies * (27/2) + bookmarks * 10 + retweets * 1 + likes * (1/2) +
      profile_clicks * 12 + url_clicks * 5
  let normalized_xas := raw_xas / impressions * 1000
  let total_engagements := likes + retweets + replies + bookmarks
  let engagement_rate := total_engagements / impressions
  let amplification_rate := retweets / impressions
  let conversation_rate := replies / impressions
  let save_rate := bookmarks / impressions
  let growth_score :=
    impressions * (4/10) + normalized_xas * (3/10) + profile_clicks * (2/10) +
      total_engagements * (1/10)
  { raw_xas := round2 raw_xas
    normalized_xas := round2 normalized_xas
    engagement_rate := round4 engagement_rate
    amplification_rate := round4 amplification_rate
    conversation_rate := round4 conversation_rate
    save_rate := round4 save_rate
    growth_score := round2 growth_score }

end Engine

namespace Engine

/-- One bandit update step written as a fold step, for reasoning about the
number of `updateBeta` calls applied to an arm since its creation. -/
def updateRun (l : List (ℚ × ℚ)) : BetaParams :=
  l.foldl (fun q sm => updateBeta q sm.1 sm.2) initBetaParams

end Engine

namespace Engine

/-- The `global_stats` block of `LearningState`. -/
structure GlobalStats where
  total_analyzed : ℤ
  avg_xas : ℚ
  avg_impressions : ℤ
  best_xas_post : Option String
  worst_xas_post : Option String
  deriving DecidableEq

/-- A `Record<string, BetaParams>` of the source, modelled as an
association list in insertion order (JavaScript objects preserve string-key
insertion order, which `Object.entries` follows). -/
abbrev ArmMap := List (String × BetaParams)

/-- `interface LearningState`. -/
structure LearningState where
  version : String
  last_updated : String
  theme_scores : ArmMap
  approach_scores : ArmMap
  slot_scores : ArmMap
  variant_scores : ArmMap
  feature_scores : ArmMap
  source_type_scores : ArmMap
  global_stats : GlobalStats
  deriving DecidableEq

/-- The default state built by `loadLearningState()` when
`learning_state.json` does not exist; `now` is `new Date().toISOString()`. -/
def defaultLearningState (now : String) : LearningState :=
  { version := "2.1"
    last_updated := now
    theme_scores := []
    approach_scores := []
    slot_scores := []
    variant_scores := []
    feature_scores := []
    source_type_scores := []
    global_stats :=
      { total_analyzed := 0
        avg_xas := 0
        avg_impressions := 0
        best_xas_post := none
        worst_xas_post := none } }

/-- The observable states of the persisted `learning_state.json` file:
absent, present with content `JSON.parse` rejects, or present and parsing
to a `LearningState`. -/
inductive StateFile where
  | missing : StateFile
  | malformed : String → StateFile
  | valid : LearningState → StateFile
  deriving DecidableEq

/-- `loadLearningState()` from `analyze_hypothesis.ts`:

```ts
if (fs.existsSync(LEARNING_STATE)) {
  return JSON.parse(fs.readFileSync(LEARNING_STATE, 'utf-8'));
}
return { version: '2.1', ... all maps empty, global_stats zeroed ... };
```

There is no `try`/`catch`: when the file exists, the result of `JSON.parse`
is returned as-is, and on malformed content `JSON.parse` throws a
`SyntaxError` which propagates out of the function (modelled as
`Except.error`). -/
def loadLearningState (now : String) : StateFile → Except String LearningState
  | .missing => .ok (defaultLearningState now)
  | .malformed _ => .error "SyntaxError: JSON.parse"
  | .valid s => .ok s

/-- `interface TextFeatures`. -/
structure TextFeatures where
  char_count : ℤ
  line_count : ℤ
  emoji_count : ℤ
  has_numbers : Bool
  has_question : Bool
  has_exclamation : Bool
  has_ellipsis : Bool
  hashtag_count : ℤ
  mention_count : ℤ
  url_count : ℤ
  first_line_length : ℤ
  hook_pattern : String
  sentiment : String
  deriving DecidableEq

/-- `interface Attribution`. -/
structure Attribution where
  theme : String
  approach : String
  text_features : TextFeatures
  slot : String
  day_of_week : ℤ
  variant : String
  theme_freshness : ℚ
  days_since_same_theme : ℚ
  source_type : String
  deriving DecidableEq

/-- `interface AnalyzedPost`: one Phase-1 analysis row, as persisted to
`hypothesis_analysis.json` and consumed by `verify`. -/
structure AnalyzedPost where
  post_id : String
  tweet_id : String
  posted_at : String
  content : String
  xas : XASResult
  attribution : Attribution
  deriving DecidableEq

/-- `Record` lookup (`m[key]`, `undefined` when absent). -/
def armLookup : ArmMap → String → Option BetaParams
  | [], _ => none
  | (k', v) :: rest, k => if k' = k then some v else armLookup rest k

/-- `Record` assignment `m[key] = v`: replaces in place, or appends a new
key at the end (JavaScript insertion order). -/
def armSet : ArmMap → String → BetaParams → ArmMap
  | [], k, v => [(k, v)]
  | (k', v') :: rest, k, v =>
      if k' = k then (k, v) :: rest else (k', v') :: armSet rest k v

/-- The per-arm step of `analyze` Phase 2:
`if (!m[key]) m[key] = initBetaParams(); m[key] = updateBeta(m[key], score, max)`. -/
def armUpdate (m : ArmMap) (k : String) (score maxScore : ℚ) : ArmMap :=
  armSet m k (updateBeta ((armLookup m k).getD initBetaParams) score maxScore)

/-- The `trials` count of an arm, an absent arm counting as the prior's 0. -/
def armTrials (m : ArmMap) (k : String) : ℤ :=
  ((armLookup m k).getD initBetaParams).trials

end Engine

namespace Engine

/-- The `result` block written into a hypothesis-log week by `verify`. -/
structure WeekResult where
  posts_count : ℤ
  avg_imp : Option ℚ
  avg_xas : ℚ
  avg_er : ℚ
  best_post : Option String
  worst_post : Option String
  deriving DecidableEq

/-- The `verification` block of a hypothesis-log week: per-dimension
verdicts; `null` is `none`.  `pain_accurate` and `approach_effective` are
produced by `cond ? true : false` in the source and are plain booleans. -/
structure Verification where
  pain_accurate : Bool
  approach_effective : Bool
  expression_worked : Option Bool
  framework_link_value : Option Bool
  deriving DecidableEq

/-- One `weeks` entry of `pain_hypothesis_log.yml`
(`week.framework_link?.matched` is truthy iff `framework_link_matched`). -/
structure HypothesisWeek where
  week : String
  theme : String
  approach : String
  framework_link_matched : Bool
  result : Option WeekResult
  verification : Option Verification
  learning : Option String
  next_action : Option String
  deriving DecidableEq

/-- The skip guard of the `verify` loop:
`if (week.result && week.result.avg_imp !== null) continue;`. -/
def isVerified (w : HypothesisWeek) : Bool :=
  match w.result with
  | some r => r.avg_imp.isSome
  | none => false

/-- The body of the `verify` loop for a single week of the hypothesis log,
from `analyze_hypothesis.ts`.  `state` is `loadLearningState()` (the same
file is re-read for each week, so the same value), `results` is the parsed
`hypothesis_analysis.json`.  Already-verified weeks and weeks with no
matching analyzed post are left untouched (`continue`); otherwise the
`result`, `verification`, `learning` and `next_action` fields are filled
in.  The JavaScript `[...].sort((a, b) => b.xas.normalized_xas - a.xas.normalized_xas)`
is the stable descending sort `mergeSort` on that key; `best` is
`sorted[0]` and `worst` is `sorted[sorted.length - 1]`;
`(state.global_stats.avg_xas || 0)` is the identity on numbers. -/
def themePostsOf (results : List AnalyzedPost) (week : HypothesisWeek) : List AnalyzedPost :=
  results.filter (fun r => decide (r.attribution.theme = week.theme))

/-- The stable descending sort
`[...posts].sort((a, b) => b.xas.normalized_xas - a.xas.normalized_xas)`. -/
def sortByXASDesc (l : List AnalyzedPost) : List AnalyzedPost :=
  l.mergeSort (fun a b => decide (b.xas.normalized_xas ≤ a.xas.normalized_xas))

def verifyWeek (state : LearningState) (results : List AnalyzedPost)
    (week : HypothesisWeek) : HypothesisWeek :=
  if isVerified week then week
  else
    let themePosts := themePostsOf results week
    if themePosts.isEmpty then week
    else
      let n : ℚ := themePosts.length
      let avgXAS := (themePosts.map (fun p => p.xas.normalized_xas)).sum / n
      let avgImp := (themePosts.map (fun p => p.xas.growth_score)).sum / n
      let avgER := (themePosts.map (fun p => p.xas.engagement_rate)).sum / n
      let sorted := sortByXASDesc themePosts
      let best := sorted.head?
      let worst := sorted.getLast?
      let gavg := state.global_stats.avg_xas
      let approachScore := armLookup state.approach_scores week.approach
      let verification : Verification :=
        { pain_accurate := decide (avgXAS > gavg)
          approach_effective :=
            match approachScore with
            | some p => decide (p.mean > 1/2)
            | none => false
          expression_worked :=
            best.map (fun b => decide (b.xas.normalized_xas > avgXAS * (6/5)))
          framework_link_value :=
            if week.framework_link_matched then some (decide (avgXAS > gavg * (4/5)))
            else none }
      let l1 :=
        if verification.pain_accurate then
          "テーマ「" ++ week.theme ++ "」のペイン分析は正確だった（XAS " ++
            toString (jround avgXAS) ++ " > 平均" ++ toString (jround gavg) ++ "）"
        else
          "テーマ「" ++ week.theme ++ "」のXASは平均以下（" ++ toString (jround avgXAS) ++
            " < " ++ toString (jround gavg) ++ "）。ペインの刺し方を再検討"
      let l2 :=
        match best with
        | some b =>
            ["ベスト投稿: " ++ toString b.attribution.text_features.char_count ++
              "字, hook=" ++ b.attribution.text_features.hook_pattern ++
              ", sentiment=" ++ b.attribution.text_features.sentiment]
        | none => []
      let avgFreshness := (themePosts.map (fun p => p.attribution.theme_freshness)).sum / n
      let l3 :=
        if avgFreshness < 17/20 then
          ["テーマ鮮度が低い（" ++ toString (jround (avgFreshness * 100)) ++
            "%）。次週は異なるテーマを推奨"]
        else []
      let learning := String.intercalate "。" ([l1] ++ l2 ++ l3)
      let next_action :=
        if avgXAS > gavg then
          "テーマ「" ++ week.theme ++ "」は有効。同系統のペインで深掘り可能"
        else "テーマ変更を検討。accumulated_learningsに追加"
      { week with
        result := some
          { posts_count := themePosts.length
            avg_imp := some (round2 avgImp)
            avg_xas := round2 avgXAS
            avg_er := round4 avgER
            best_post := best.bind (fun b => if b.post_id = "" then none else some b.post_id)
            worst_post := worst.bind (fun b => if b.post_id = "" then none else some b.post_id) }
        verification := some verification
        learning := some learning
        next_action := some next_action }

/-- The text-feature length bucket of `analyze` Phase 2:
`char_count < 120 ? 'short' : char_count < 200 ? 'medium' : 'long'`. -/
def charBucket (tf : TextFeatures) : String :=
  if tf.char_count < 120 then "short" else if tf.char_count < 200 then "medium" else "long"

/-- `emoji_count === 0 ? 'emoji_none' : emoji_count <= 2 ? 'emoji_few' : 'emoji_many'`. -/
def emojiKey (tf : TextFeatures) : String :=
  if tf.emoji_count = 0 then "emoji_none" else if tf.emoji_count ≤ 2 then "emoji_few" else "emoji_many"

/-- `hashtag_count === 0 ? 'hashtag_none' : 'hashtag_yes'`. -/
def hashtagKey (tf : TextFeatures) : String :=
  if tf.hashtag_count = 0 then "hashtag_none" else "hashtag_yes"

/-- `has_numbers ? 'has_numbers' : 'no_numbers'`. -/
def numberKey (tf : TextFeatures) : String :=
  if tf.has_numbers then "has_numbers" else "no_numbers"

/-- The six `feature_scores` keys updated for one post, in source order. -/
def featureKeys (a : Attribution) : List String :=
  ["len_" ++ charBucket a.text_features, emojiKey a.text_features,
    "hook_" ++ a.text_features.hook_pattern,
    "sentiment_" ++ a.text_features.sentiment,
    hashtagKey a.text_features, numberKey a.text_features]

/-- The Phase-2 body of `analyze` for a single analyzed post: every one of
the six score maps receives one `updateBeta` per matching key (the
`feature_scores` map receives six — length bucket, emoji bucket, hook,
sentiment, hashtag presence, number presence). -/
def analyzePost (st : LearningState) (r : AnalyzedPost) (maxXAS : ℚ) : LearningState :=
  let score := r.xas.normalized_xas
  let a := r.attribution
  { st with
    theme_scores := armUpdate st.theme_scores a.theme score maxXAS
    approach_scores := armUpdate st.approach_scores a.approach score maxXAS
    slot_scores := armUpdate st.slot_scores a.slot score maxXAS
    variant_scores := armUpdate st.variant_scores a.variant score maxXAS
    feature_scores := (featureKeys a).foldl (fun m k => armUpdate m k score maxXAS) st.feature_scores
    source_type_scores := armUpdate st.source_type_scores a.source_type score maxXAS }

/-- One Phase-1 row of `analyze`: the computed `AnalyzedPost` (a pure
function of the history file: `calculateXAS`, `extractTextFeatures`,
`calculateThemeFreshness`) together with the post's raw
`metrics.impressions`, which the global statistics accumulate. -/
structure AnalyzedRow where
  post : AnalyzedPost
  impressions : ℤ
  deriving DecidableEq

/-- `analyze` from Phase-1 output onward: aggregates (`totalXAS`,
`totalImp`, best/worst/max XAS), the Phase-2 Thompson-sampling update of
all six dimensions for every post, and the recomputed `global_stats`.
When no post carries metrics, `analyze` returns before touching or saving
the state.  The Phase-1 rows are a pure function of the history file, so
two `analyze` runs over the same history consume the same `rows`. -/
def analyzeRun (st : LearningState) (rows : List AnalyzedRow) : LearningState :=
  if rows.isEmpty then st
  else
    let posts := rows.map (fun r => r.post)
    let maxXAS := posts.foldl
      (fun m r => if r.xas.normalized_xas > m then r.xas.normalized_xas else m) 0
    let best := posts.foldl
      (fun acc r => if r.xas.normalized_xas > acc.1 then (r.xas.normalized_xas, r.post_id) else acc)
      (-1, "")
    let worst := posts.foldl
      (fun acc r =>
        match acc.1 with
        | none => (some r.xas.normalized_xas, r.post_id)
        | some w => if r.xas.normalized_xas < w then (some r.xas.normalized_xas, r.post_id) else acc)
      ((none : Option ℚ), "")
    let st2 := posts.foldl (fun s r => analyzePost s r maxXAS) st
    let n : ℚ := posts.length
    { st2 with
      global_stats :=
        { total_analyzed := posts.length
          avg_xas := round2 ((posts.map (fun r => r.xas.normalized_xas)).sum / n)
          avg_impressions := jround (((rows.map (fun r => r.impressions)).sum : ℚ) / n)
          best_xas_post := some best.2
          worst_xas_post := some worst.2 } }

/-- The six bandit dimensions. -/
inductive Dim where
  | theme | approach | slot | variant | feature | source
  deriving DecidableEq

/-- The score map of a dimension. -/
def dimScores (d : Dim) (st : LearningState) : ArmMap :=
  match d with
  | .theme => st.theme_scores
  | .approach => st.approach_scores
  | .slot => st.slot_scores
  | .variant => st.variant_scores
  | .feature => st.feature_scores
  | .source => st.source_type_scores

/-- The arm keys one post contributes to a dimension. -/
def dimKeys (d : Dim) (a : Attribution) : List String :=
  match d with
  | .theme => [a.theme]
  | .approach => [a.approach]
  | .slot => [a.slot]
  | .variant => [a.variant]
  | .feature => featureKeys a
  | .source => [a.source_type]

/-- How many posts of a batch touch arm `k` of dimension `d` (counting the
six feature keys of each post separately). -/
def dimCount (d : Dim) (rows : List AnalyzedRow) (k : String) : ℤ :=
  (((rows.map (fun r => dimKeys d r.post.attribution)).flatten).count k : ℤ)

end Engine

namespace Engine

/-- Concrete hypothesis-log entry already marked verified
(`result.avg_imp` non-null). -/
def cexVerifiedWeek : HypothesisWeek :=
  { week := "2026-W01", theme := "T", approach := "how_to", framework_link_matched := false
    result := some ⟨3, some 5, 10, 1/100, some "p1", some "p2"⟩
    verification := none, learning := none, next_action := none }

/-- Concrete XAS block for a single analyzed post. -/
def cexXAS : XASResult := ⟨100, 100, 1/10, 0, 0, 0, 50⟩

/-- Concrete text features for a single analyzed post. -/
def cexTF : TextFeatures :=
  { char_count := 140, line_count := 3, emoji_count := 1, has_numbers := true
    has_question := false, has_exclamation := false, has_ellipsis := false
    hashtag_count := 0, mention_count := 0, url_count := 0, first_line_length := 20
    hook_pattern := "data", sentiment := "positive" }

/-- Concrete attribution: theme `"T"`, approach `"how_to"`. -/
def cexAttribution : Attribution :=
  { theme := "T", approach := "how_to", text_features := cexTF, slot := "morning"
    day_of_week := 1, variant := "A", theme_freshness := 1, days_since_same_theme := 999
    source_type := "domestic" }

/-- Concrete analyzed post of theme `"T"`. -/
def cexPost : AnalyzedPost :=
  { post_id := "p1", tweet_id := "tw1", posted_at := "2026-01-01", content := "text"
    xas := cexXAS, attribution := cexAttribution }

/-- Concrete learning state whose `how_to` approach arm has `trials = 1`
(fewer than 5) and `mean = 0.6`. -/
def cexC7State : LearningState :=
  { defaultLearningState "t" with approach_scores := [("how_to", ⟨3/10, 7/10, 1, 3/5⟩)] }

/-- Concrete pending hypothesis-log entry (no `result` yet). -/
def cexPendingWeek : HypothesisWeek :=
  { week := "2026-W02", theme := "T", approach := "how_to", framework_link_matched := false
    result := none, verification := none, learning := none, next_action := none }

end Engine

namespace Engine

/-- JavaScript `Math.round` on the reals (the samplers live in `ℝ`). -/
noncomputable def jroundR (x : ℝ) : ℤ := ⌊x + 1/2⌋

/-- `Math.round(x * 1000) / 1000` on the reals. -/
noncomputable def round3R (x : ℝ) : ℝ := (jroundR (x * 1000) : ℝ) / 1000

/-- `sampleBeta(params)` of `analyze_hypothesis.ts` — the learning engine's
own sampler, used by `recommend` for Thompson ranking.  It is *not* a
Gamma-ratio sampler: it is a clamped normal approximation built from the
Beta mean and variance with one Box–Muller draw:

```ts
if (alpha <= 0 || beta <= 0) return 0.5;
const mean = alpha / (alpha + beta);
const variance = (alpha * beta) / ((alpha + beta) ** 2 * (alpha + beta + 1));
const stddev = Math.sqrt(variance);
const u1 = Math.random(); const u2 = Math.random();
const z = Math.sqrt(-2 * Math.log(u1)) * Math.cos(2 * Math.PI * u2);
const sample = mean + z * stddev;
return Math.min(1.0, Math.max(0.0, sample));
```

`u` is the `Math.random()` stream and `k` the position of the next unread
draw; exactly `u k` and `u (k+1)` are consumed. -/
noncomputable def sampleBeta (params : BetaParams) (u : ℕ → ℝ) (k : ℕ) : ℝ :=
  if (params.alpha : ℝ) ≤ 0 ∨ (params.beta : ℝ) ≤ 0 then 0.5
  else
    let alpha : ℝ := params.alpha
    let beta : ℝ := params.beta
    let mean := alpha / (alpha + beta)
    let variance := alpha * beta / ((alpha + beta) ^ 2 * (alpha + beta + 1))
    let stddev := Real.sqrt variance
    let z := Real.sqrt (-2 * Real.log (u k)) * Real.cos (2 * Real.pi * u (k + 1))
    min 1 (max 0 (mean + z * stddev))

/-- One entry of the in-memory `themeSamples` / `approachSamples` /
`featureSamples` arrays of `recommend`. -/
structure RankEntry where
  name : String
  sample : ℝ
  mean : ℚ
  trials : ℤ

/-- One entry of the persisted `slot_ranking` (it carries *no* sample). -/
structure SlotEntry where
  name : String
  mean : ℚ
  trials : ℤ
  deriving DecidableEq

/-- The `recommended.text_features` block. -/
structure TextFeatureRec where
  length : String
  emoji : String
  hook : String
  sentiment : String
  deriving DecidableEq

/-- The `recommended` block. -/
structure Recommended where
  theme : String
  approach : String
  text_features : TextFeatureRec
  deriving DecidableEq

/-- The persisted `next_recommendation.json` object. -/
structure Recommendation where
  generated_at : String
  based_on_total_analyzed : ℤ
  based_on_avg_xas : ℚ
  recommended : Recommended
  theme_ranking : List RankEntry
  approach_ranking : List RankEntry
  slot_ranking : List SlotEntry
  accumulated_learnings : List String

/-- `for (const [name, params] of Object.entries(m)) { const sample =
sampleBeta(params); xs.push({name, sample, mean, trials}); }` — one
Thompson draw per arm in insertion order, each consuming two uniforms;
returns the array and the next unread stream position. -/
noncomputable def sampleArms (u : ℕ → ℝ) : ArmMap → ℕ → List RankEntry × ℕ
  | [], k => ([], k)
  | (name, p) :: rest, k =>
    let s := sampleBeta p u k
    let (tail, k') := sampleArms u rest (k + 2)
    (⟨name, s, p.mean, p.trials⟩ :: tail, k')

/-- The stable descending sort `xs.sort((a, b) => b.sample - a.sample)`. -/
noncomputable def sortBySampleDesc (l : List RankEntry) : List RankEntry :=
  l.mergeSort (fun a b => decide (b.sample ≤ a.sample))

/-- JavaScript `s || fallback` on strings (the empty string is falsy). -/
def jsOr (s fallback : String) : String := if s = "" then fallback else s

/-- `xs.find(f => f.name.startsWith(pre))?.name.replace(pre, '') || fb`. -/
noncomputable def bestFeature (l : List RankEntry) (pre : String) (fb : String) : String :=
  match l.find? (fun f => f.name.startsWith pre) with
  | some f => jsOr (f.name.drop pre.length) fb
  | none => fb

/-- The `recommend()` command of `analyze_hypothesis.ts` from state to the
persisted `next_recommendation.json` object.  The five sampled dimensions
consume the `Math.random()` stream in source order — themes, approaches,
slots (console display only), text features, then source types (console
only; it affects nothing that is persisted and is omitted here, being the
last consumer of the stream) — while `variant_scores` is never read at
all.  The persisted object carries sample-ranked lists only for themes and
approaches (entries rounded to 3 decimals), a slot ranking sorted by mean
with no sample, and best entries for theme, approach and the four
text-feature buckets; `acc` is the `accumulated_learnings` copied from the
hypothesis log (empty when that file is absent or unreadable), `now` the
`generated_at` timestamp. -/
noncomputable def recommendBuild (state : LearningState) (u : ℕ → ℝ)
    (now : String) (acc : List String) : Recommendation :=
  let tRaw := sampleArms u state.theme_scores 0
  let themeSamples := sortBySampleDesc tRaw.1
  let aRaw := sampleArms u state.approach_scores tRaw.2
  let approachSamples := sortBySampleDesc aRaw.1
  let sRaw := sampleArms u state.slot_scores aRaw.2
  let fRaw := sampleArms u state.feature_scores sRaw.2
  let featureSamples := sortBySampleDesc fRaw.1
  let bestTheme :=
    match themeSamples.head? with
    | some t => jsOr t.name "新テーマ推奨"
    | none => "新テーマ推奨"
  let bestApproach :=
    match approachSamples.head? with
    | some a => jsOr a.name "discovery"
    | none => "discovery"
  { generated_at := now
    based_on_total_analyzed := state.global_stats.total_analyzed
    based_on_avg_xas := state.global_stats.avg_xas
    recommended :=
      { theme := bestTheme
        approach := bestApproach
        text_features :=
          { length := bestFeature featureSamples "len_" "short"
            emoji := bestFeature featureSamples "emoji_" "few"
            hook := bestFeature featureSamples "hook_" "confession"
            sentiment := bestFeature featureSamples "sentiment_" "mixed" } }
    theme_ranking := themeSamples.map
      (fun t => ⟨t.name, round3R t.sample, round3 t.mean, t.trials⟩)
    approach_ranking := approachSamples.map
      (fun a => ⟨a.name, round3R a.sample, round3 a.mean, a.trials⟩)
    slot_ranking := (state.slot_scores.map
        (fun nv => SlotEntry.mk nv.1 (round3 nv.2.mean) nv.2.trials)).mergeSort
      (fun a b => decide (b.mean ≤ a.mean))
    accumulated_learnings := acc }

/-- `recommend()` including its entry guard: with `total_analyzed === 0`
it prints a diagnostic and returns without writing anything (`none`). -/
noncomputable def recommendRun (state : LearningState) (u : ℕ → ℝ)
    (now : String) (acc : List String) : Option Recommendation :=
  if state.global_stats.total_analyzed = 0 then none
  else some (recommendBuild state u now acc)

/-- Concrete learning state (post-`analyze`) with one theme arm, one slot
arm and one A-variant arm. -/
def cexC8StateA : LearningState :=
  { defaultLearningState "t" with
    theme_scores := [("T", ⟨3/10, 7/10, 1, 3/10⟩)]
    slot_scores := [("morning", ⟨11/10, 9/10, 2, 11/20⟩)]
    variant_scores := [("A", ⟨3/10, 7/10, 1, 3/10⟩)]
    global_stats :=
      { total_analyzed := 1, avg_xas := 100, avg_impressions := 50
        best_xas_post := some "p1", worst_xas_post := some "p1" } }

/-- The same state with a completely different `variant_scores` map. -/
def cexC8StateB : LearningState :=
  { cexC8StateA with variant_scores := [("B", ⟨9/10, 1/10, 7, 9/10⟩)] }

end Engine

namespace Scripts

/-- `normalRandom()` from `auto_post.ts` (and, verbatim, `daily_generate.ts`):
Box–Muller, consuming `u k` and `u (k+1)`:

```ts
const u1 = Math.random(); const u2 = Math.random();
return Math.sqrt(-2 * Math.log(u1)) * Math.cos(2 * Math.PI * u2);
```
-/
noncomputable def normalRandom (u : ℕ → ℝ) (k : ℕ) : ℝ :=
  Real.sqrt (-2 * Real.log (u k)) * Real.cos (2 * Real.pi * u (k + 1))

/-- The inner `do { x = normalRandom(); v = 1 + c*x } while (v <= 0)` of
`sampleGamma`, with fuel; returns `(x, v, next position)`. -/
noncomputable def drawAccept (c : ℝ) (u : ℕ → ℝ) : ℕ → ℕ → Option (ℝ × ℝ × ℕ)
  | 0, _ => none
  | fuel + 1, k =>
    let x := normalRandom u k
    let v := 1 + c * x
    if v ≤ 0 then drawAccept c u fuel (k + 2) else some (x, v, k + 2)

/-- The `while (true)` rejection loop of `sampleGamma` for shape ≥ 1:
cube the accepted `v`, draw one uniform `u`, accept on
`u < 1 - 0.0331*x⁴` or on `log u < 0.5x² + d(1 - v + log v)`, else loop. -/
noncomputable def gammaLoop (d c : ℝ) (u : ℕ → ℝ) : ℕ → ℕ → Option (ℝ × ℕ)
  | 0, _ => none
  | fuel + 1, k =>
    match drawAccept c u (fuel + 1) k with
    | none => none
    | some (x, v0, k1) =>
      let v := v0 * v0 * v0
      let uu := u k1
      if uu < 1 - 0.0331 * (x * x) * (x * x) then some (d * v, k1 + 1)
      else if Real.log uu < 0.5 * x * x + d * (1 - v + Real.log v) then some (d * v, k1 + 1)
      else gammaLoop d c u fuel (k1 + 1)

/-- `sampleGamma(shape)` from `auto_post.ts` / `daily_generate.ts`
(Marsaglia–Tsang):

```ts
if (shape < 1) {
  return sampleGamma(shape + 1) * Math.pow(Math.random(), 1.0 / shape);
}
const d = shape - 1.0 / 3.0;
const c = 1.0 / Math.sqrt(9.0 * d);
while (true) { ... }
```

The recursive call consumes the stream before the scaling `Math.random()`
(JavaScript evaluates the left operand first). -/
noncomputable def sampleGamma (u : ℕ → ℝ) : ℕ → ℝ → ℕ → Option (ℝ × ℕ)
  | 0, _, _ => none
  | fuel + 1, shape, k =>
    if shape < 1 then
      match sampleGamma u fuel (shape + 1) k with
      | none => none
      | some (g, k1) => some (g * (u k1) ^ (1 / shape), k1 + 1)
    else
      let d := shape - 1/3
      let c := 1 / Real.sqrt (9 * d)
      gammaLoop d c u (fuel + 1) k

/-- `sampleBeta(alpha, beta)` from `auto_post.ts` (and, verbatim,
`daily_generate.ts`): the Gamma-ratio Beta sampler,

```ts
if (alpha <= 0 || beta <= 0) return 0.5;
const gammaA = sampleGamma(alpha);
const gammaB = sampleGamma(beta);
if (gammaA + gammaB === 0) return 0.5;
return gammaA / (gammaA + gammaB);
```
-/
noncomputable def sampleBeta (u : ℕ → ℝ) (fuel : ℕ) (alpha beta : ℝ) (k : ℕ) :
    Option (ℝ × ℕ) :=
  if alpha ≤ 0 ∨ beta ≤ 0 then some (0.5, k)
  else
    match sampleGamma u fuel alpha k with
    | none => none
    | some (ga, k1) =>
      match sampleGamma u fuel beta k1 with
      | none => none
      | some (gb, k2) =>
        if ga + gb = 0 then some (0.5, k2) else some (ga / (ga + gb), k2)

end Scripts

/-- A concrete everywhere-positive `Math.random()` stream: `1/2, 1/4, 1/2,
1/2, 1/4, 1/2, …`.  Every Box–Muller draw on it lands on an even position,
so its second uniform is `1/4` and the resulting normal is
`sqrt(-2 log ½) · cos(π/2) = 0`. -/
noncomputable def posStrm : ℕ → ℝ := fun n =>
  match n % 3 with
  | 1 => 1/4
  | _ => 1/2

section RoundingLemmas

/-- `Math.round(x*100)/100` is exact on half-integers. -/
theorem round2_half_int (k : ℤ) : round2 ((k : ℚ) / 2) = (k : ℚ) / 2 := by
  unfold round2 jround
  have h : ((k : ℚ) / 2) * 100 + 1/2 = ((50 * k : ℤ) : ℚ) + 1/2 := by push_cast; ring
  rw [h, Int.floor_int_add]
  norm_num
  ring

/-- Decomposition of `round3` at a point on the 3-decimal grid. -/
theorem round3_int_add (a : ℤ) (x : ℚ) :
    round3 ((a : ℚ) / 1000 + x) = ((a + ⌊x * 1000 + 1/2⌋ : ℤ) : ℚ) / 1000 := by
  unfold round3 jround
  have h : ((a : ℚ) / 1000 + x) * 1000 + 1/2 = (a : ℚ) + (x * 1000 + 1/2) := by ring
  rw [h, Int.floor_int_add]

/-- The normalization `min 1 (max 0 ·)` lands in `[0, 1]`. -/
theorem clamp_mem (x : ℚ) : 0 ≤ min 1 (max 0 x) ∧ min 1 (max 0 x) ≤ 1 :=
  ⟨le_min (by norm_num) (le_max_left 0 x), min_le_left 1 _⟩

/-- `updateBeta` adds one to `trials` at every call, so a fold of updates
from the prior reaches `trials = number of calls`. -/
theorem updateRun_trials_aux (l : List (ℚ × ℚ)) (p : Engine.BetaParams) :
    (l.foldl (fun q sm => Engine.updateBeta q sm.1 sm.2) p).trials =
      p.trials + l.length := by
  induction l generalizing p with
  | nil => simp
  | cons hd tl ih =>
    rw [List.foldl_cons, ih]
    show p.trials + 1 + (tl.length : ℤ) = p.trials + ((hd :: tl).length : ℤ)
    push_cast [List.length_cons]
    ring

end RoundingLemmas

/-- **C1** (counterexample).  The claim says `updateBeta` returns *exactly*
`alpha' = alpha + n` with `n = clamp(r / max(r_max, 1), 0, 1)`.  For the arm
`(alpha=0.3, beta=0.7, trials=0)` with reward `1` and batch maximum `3` we
have `n = 1/3`, but the code rounds the returned `alpha` to 3 decimal
places: it returns `0.633`, not `0.3 + 1/3 = 0.6333…`. -/
theorem C1_counterexample :
    (Engine.updateBeta ⟨3/10, 7/10, 0, 3/10⟩ 1 3).alpha ≠ 3/10 + 1/3 := by
  norm_num [Engine.updateBeta, round3, jround, max_def, min_def]

/-- **C1** (amended).  `updateBeta` returns the claimed formulas *rounded to
3 decimal places* (`Math.round(x*1000)/1000`), the returned `mean` being the
rounding of the mean of the unrounded `alpha'`, `beta'`; `trials` is exact.
The claim's concrete instance — prior arm `(0.3, 0.7, 0)` with normalized
reward `0.8` becomes `(1.1, 0.9, 1, 0.55)` — holds exactly because those
values lie on the 3-decimal grid. -/
theorem C1_amended (p : Engine.BetaParams) (score maxScore : ℚ) :
    (Engine.updateBeta p score maxScore =
      { alpha := round3 (p.alpha + min 1 (max 0 (score / max maxScore 1)))
        beta := round3 (p.beta + (1 - min 1 (max 0 (score / max maxScore 1))))
        trials := p.trials + 1
        mean := round3 ((p.alpha + min 1 (max 0 (score / max maxScore 1))) /
          ((p.alpha + min 1 (max 0 (score / max maxScore 1))) +
            (p.beta + (1 - min 1 (max 0 (score / max maxScore 1)))))) }) ∧
    Engine.updateBeta ⟨3/10, 7/10, 0, 3/10⟩ (8/10) 1 = ⟨11/10, 9/10, 1, 11/20⟩ := by
  constructor
  · rfl
  · norm_num [Engine.updateBeta, round3, jround, max_def, min_def]

/-- **C1** (witness for the amended theorem): the amended equation evaluated
at the claim's own Scenario-B instance. -/
theorem C1_witness :
    Engine.updateBeta ⟨3/10, 7/10, 0, 3/10⟩ (8/10) 1 = ⟨11/10, 9/10, 1, 11/20⟩ :=
  (C1_amended ⟨3/10, 7/10, 0, 3/10⟩ (8/10) 1).2

/-- **C3** (counterexample).  The claim says the scorer returns
`normalized_score = raw_score / impressions * 1000` exactly; but the code
rounds it to 2 decimal places.  For `impressions = 3` and a single like,
`raw_score = 0.5` and the exact rate is `500/3 = 166.66…`, while the code
returns `166.67`. -/
theorem C3_counterexample :
    (Engine.calculateXAS ⟨3, 1, 0, 0, none, none, none⟩).normalized_xas ≠
      (Engine.calculateXAS ⟨3, 1, 0, 0, none, none, none⟩).raw_xas / 3 * 1000 := by
  norm_num [Engine.calculateXAS, round2, round4, jround, max_def]

/-- **C3** (amended).  `raw_score` is the exact weighted sum
`replies*13.5 + bookmarks*10 + reshares*1 + likes*0.5 + profile_clicks*12 +
link_clicks*5` (the code's 2-decimal rounding is exact on it, because with
integer counters the sum is a half-integer), while `normalized_score` is
`raw_score / max(impressions, 1) * 1000` *rounded to 2 decimal places*.
The claim's Scenario-A instance is exact. -/
theorem C3_amended (m : Engine.PostMetrics) :
    ((Engine.calculateXAS m).raw_xas =
      (m.replies : ℚ) * (27/2) + (m.bookmarks.getD 0 : ℚ) * 10 +
        (m.retweets : ℚ) * 1 + (m.likes : ℚ) * (1/2) +
        (m.profile_clicks.getD 0 : ℚ) * 12 + (m.url_clicks.getD 0 : ℚ) * 5) ∧
    ((Engine.calculateXAS m).normalized_xas =
      round2 (((m.replies : ℚ) * (27/2) + (m.bookmarks.getD 0 : ℚ) * 10 +
        (m.retweets : ℚ) * 1 + (m.likes : ℚ) * (1/2) +
        (m.profile_clicks.getD 0 : ℚ) * 12 + (m.url_clicks.getD 0 : ℚ) * 5) /
          max (m.impressions : ℚ) 1 * 1000)) ∧
    Engine.calculateXAS ⟨1000, 50, 10, 5, some 20, none, none⟩ =
      ⟨605/2, 605/2, 17/200, 1/100, 1/200, 1/50, 1997/4⟩ := by
  refine ⟨?_, rfl, ?_⟩
  · show round2 _ = _
    have hk : (m.replies : ℚ) * (27/2) + (m.bookmarks.getD 0 : ℚ) * 10 +
        (m.retweets : ℚ) * 1 + (m.likes : ℚ) * (1/2) +
        (m.profile_clicks.getD 0 : ℚ) * 12 + (m.url_clicks.getD 0 : ℚ) * 5 =
        ((27 * m.replies + 20 * m.bookmarks.getD 0 + 2 * m.retweets + m.likes +
          24 * m.profile_clicks.getD 0 + 10 * m.url_clicks.getD 0 : ℤ) : ℚ) / 2 := by
      push_cast; ring
    rw [hk, round2_half_int]
  · norm_num [Engine.calculateXAS, round2, round4, jround, max_def]

/-- **C5** (counterexample).  The claim asserts the invariant for *every*
input arm with `alpha > 0`: but for the arm with `alpha = 1/2500 = 0.0004`
(which is positive) and a zero-normalized reward, the 3-decimal rounding
sends the returned `alpha` to `0`, so `alpha` both decreases and reaches
zero. -/
theorem C5_counterexample :
    0 < ((1:ℚ)/2500) ∧ (Engine.updateBeta ⟨1/2500, 7/10, 0, 3/10⟩ 0 1).alpha = 0 := by
  constructor
  · norm_num
  · norm_num [Engine.updateBeta, round3, jround, max_def, min_def]

/-- **C5** (amended).  For arms whose `alpha` and `beta` are positive
multiples of `0.001` — which covers every reachable arm: the prior is
`(0.3, 0.7)` and `updateBeta` only produces 3-decimal values — `updateBeta`
never decreases `alpha` or `beta`, keeps both positive, and increases
`trials` by exactly 1; folding updates from the prior gives
`trials = number of calls`. -/
theorem C5_amended :
    (∀ (p : Engine.BetaParams) (score maxScore : ℚ),
      (∃ a : ℤ, 0 < a ∧ p.alpha = (a : ℚ) / 1000) →
      (∃ b : ℤ, 0 < b ∧ p.beta = (b : ℚ) / 1000) →
      p.alpha ≤ (Engine.updateBeta p score maxScore).alpha ∧
      0 < (Engine.updateBeta p score maxScore).alpha ∧
      p.beta ≤ (Engine.updateBeta p score maxScore).beta ∧
      0 < (Engine.updateBeta p score maxScore).beta ∧
      (Engine.updateBeta p score maxScore).trials = p.trials + 1) ∧
    (∀ l : List (ℚ × ℚ), (Engine.updateRun l).trials = l.length) := by
  constructor
  · rintro p score maxScore ⟨a, ha, hpa⟩ ⟨b, hb, hpb⟩
    set n := min 1 (max 0 (score / max maxScore 1)) with hn
    obtain ⟨hn0, hn1⟩ := clamp_mem (score / max maxScore 1)
    have halpha : (Engine.updateBeta p score maxScore).alpha =
        ((a + ⌊n * 1000 + 1/2⌋ : ℤ) : ℚ) / 1000 := by
      show round3 (p.alpha + n) = _
      rw [hpa, round3_int_add]
    have hbeta : (Engine.updateBeta p score maxScore).beta =
        ((b + ⌊(1 - n) * 1000 + 1/2⌋ : ℤ) : ℚ) / 1000 := by
      show round3 (p.beta + (1 - n)) = _
      rw [hpb, round3_int_add]
    have he1 : 0 ≤ ⌊n * 1000 + 1/2⌋ := by
      rw [Int.floor_nonneg]; positivity
    have he2 : 0 ≤ ⌊(1 - n) * 1000 + 1/2⌋ := by
      rw [Int.floor_nonneg]
      have : (0:ℚ) ≤ 1 - n := by linarith
      positivity
    refine ⟨?_, ?_, ?_, ?_, rfl⟩
    · rw [halpha, hpa]
      have : (a : ℚ) ≤ ((a + ⌊n * 1000 + 1/2⌋ : ℤ) : ℚ) := by exact_mod_cast le_add_of_nonneg_right he1
      linarith
    · rw [halpha]
      have : (0 : ℚ) < ((a + ⌊n * 1000 + 1/2⌋ : ℤ) : ℚ) := by
        exact_mod_cast add_pos_of_pos_of_nonneg ha he1
      linarith
    · rw [hbeta, hpb]
      have : (b : ℚ) ≤ ((b + ⌊(1 - n) * 1000 + 1/2⌋ : ℤ) : ℚ) := by
        exact_mod_cast le_add_of_nonneg_right he2
      linarith
    · rw [hbeta]
      have : (0 : ℚ) < ((b + ⌊(1 - n) * 1000 + 1/2⌋ : ℤ) : ℚ) := by
        exact_mod_cast add_pos_of_pos_of_nonneg hb he2
      linarith
  · intro l
    unfold Engine.updateRun
    rw [updateRun_trials_aux]
    simp [Engine.initBetaParams]

/-- **C5** (witness for the amended theorem): the invariant evaluated at the
prior arm with reward `2` out of a batch maximum `4`. -/
theorem C5_witness :
    Engine.initBetaParams.alpha ≤ (Engine.updateBeta Engine.initBetaParams 2 4).alpha ∧
    0 < (Engine.updateBeta Engine.initBetaParams 2 4).alpha ∧
    Engine.initBetaParams.beta ≤ (Engine.updateBeta Engine.initBetaParams 2 4).beta ∧
    0 < (Engine.updateBeta Engine.initBetaParams 2 4).beta ∧
    (Engine.updateBeta Engine.initBetaParams 2 4).trials = Engine.initBetaParams.trials + 1 :=
  C5_amended.1 Engine.initBetaParams 2 4
    ⟨300, by norm_num, by norm_num [Engine.initBetaParams]⟩
    ⟨700, by norm_num, by norm_num [Engine.initBetaParams]⟩

section ArmLemmas

/-- `armLookup` after `armSet`. -/
theorem armLookup_armSet (m : Engine.ArmMap) (k : String) (v : Engine.BetaParams) (k' : String) :
    Engine.armLookup (Engine.armSet m k v) k' =
      if k = k' then some v else Engine.armLookup m k' := by
  induction m with
  | nil => simp [Engine.armSet, Engine.armLookup]
  | cons hd tl ih =>
    obtain ⟨a, b⟩ := hd
    by_cases hak : a = k
    · subst hak
      simp only [Engine.armSet, if_pos rfl, Engine.armLookup]
      by_cases h : a = k'
      · simp [h]
      · simp [h]
    · simp only [Engine.armSet, if_neg hak, Engine.armLookup, ih]
      by_cases hak' : a = k'
      · subst hak'
        have : ¬ (k = a) := fun h => hak h.symm
        simp [this]
      · simp [hak']

/-- One Phase-2 arm update adds 1 to the touched key's `trials` and leaves
every other key's `trials` unchanged (an absent arm counting as the
prior's 0). -/
theorem armTrials_armUpdate (m : Engine.ArmMap) (k : String) (s mx : ℚ) (k' : String) :
    Engine.armTrials (Engine.armUpdate m k s mx) k' =
      Engine.armTrials m k' + if k = k' then 1 else 0 := by
  unfold Engine.armTrials Engine.armUpdate
  rw [armLookup_armSet]
  by_cases h : k = k'
  · subst h
    simp [Engine.updateBeta]
  · simp [h]

/-- Folding arm updates over a key list adds the key's multiplicity to its
`trials`. -/
theorem armTrials_keyFold (ks : List String) (m : Engine.ArmMap) (s mx : ℚ) (k' : String) :
    Engine.armTrials (ks.foldl (fun mm kk => Engine.armUpdate mm kk s mx) m) k' =
      Engine.armTrials m k' + (ks.count k' : ℤ) := by
  induction ks generalizing m with
  | nil => simp
  | cons hd tl ih =>
    rw [List.foldl_cons, ih, armTrials_armUpdate]
    simp only [List.count_cons]
    by_cases h : hd = k'
    · simp [h]
      ring
    · have : ¬ (k' == hd) := by simp [beq_iff_eq]; exact fun hh => h hh.symm
      simp [h, List.count_cons, this]

/-- Each dimension of one `analyzePost` step is the fold of arm updates
over that post's keys for the dimension. -/
theorem dimScores_analyzePost (d : Engine.Dim) (st : Engine.LearningState)
    (r : Engine.AnalyzedPost) (mx : ℚ) :
    Engine.dimScores d (Engine.analyzePost st r mx) =
      (Engine.dimKeys d r.attribution).foldl
        (fun m k => Engine.armUpdate m k r.xas.normalized_xas mx) (Engine.dimScores d st) := by
  cases d <;> rfl

/-- Phase 2 over a batch adds, to each arm's `trials`, the number of posts
(and feature keys) of the batch that touch it. -/
theorem armTrials_postFold (posts : List Engine.AnalyzedPost) (st : Engine.LearningState)
    (mx : ℚ) (d : Engine.Dim) (k : String) :
    Engine.armTrials (Engine.dimScores d (posts.foldl (fun s r => Engine.analyzePost s r mx) st)) k =
      Engine.armTrials (Engine.dimScores d st) k +
        ((posts.map (fun r => Engine.dimKeys d r.attribution)).flatten.count k : ℤ) := by
  induction posts generalizing st with
  | nil => simp
  | cons hd tl ih =>
    rw [List.foldl_cons, ih, dimScores_analyzePost, armTrials_keyFold]
    simp only [List.map_cons, List.flatten_cons, List.count_append]
    push_cast
    ring

/-- Replacing `global_stats` does not change the score maps. -/
theorem dimScores_set_global (d : Engine.Dim) (st : Engine.LearningState) (g : Engine.GlobalStats) :
    Engine.dimScores d { st with global_stats := g } = Engine.dimScores d st := by
  cases d <;> rfl

end ArmLemmas

/-- **C10**.  `analyze` keeps no record of already-analyzed posts: a second
run over the same unchanged history (hence the same Phase-1 rows) adds the
batch's full key-multiplicity to every arm's `trials` again, in each of the
six dimensions; and `global_stats.total_analyzed` is set to the current
batch size, not accumulated. -/
theorem C10_theorem :
    (∀ (st : Engine.LearningState) (rows : List Engine.AnalyzedRow) (d : Engine.Dim) (k : String),
      Engine.armTrials (Engine.dimScores d (Engine.analyzeRun (Engine.analyzeRun st rows) rows)) k =
        Engine.armTrials (Engine.dimScores d (Engine.analyzeRun st rows)) k +
          Engine.dimCount d rows k) ∧
    (∀ (st : Engine.LearningState) (r : Engine.AnalyzedRow) (rows : List Engine.AnalyzedRow),
      (Engine.analyzeRun st (r :: rows)).global_stats.total_analyzed = ((r :: rows).length : ℤ)) := by
  constructor
  · intro st rows d k
    rcases rows with _ | ⟨hd, tl⟩
    · simp [Engine.analyzeRun, Engine.dimCount]
    · have hrun : ∀ s : Engine.LearningState,
          Engine.armTrials (Engine.dimScores d (Engine.analyzeRun s (hd :: tl))) k =
            Engine.armTrials (Engine.dimScores d s) k + Engine.dimCount d (hd :: tl) k := by
        intro s
        unfold Engine.analyzeRun
        simp only [List.isEmpty_cons, if_neg (by simp : ¬ (false = true))]
        rw [dimScores_set_global, armTrials_postFold]
        unfold Engine.dimCount
        simp only [List.map_map]
        rfl
      rw [hrun]
  · intro st r rows
    unfold Engine.analyzeRun
    simp

/-- **C6** (counterexample).  When `learning_state.json` exists but holds
malformed JSON, `loadLearningState` does *not* return the empty default
state: the `JSON.parse` exception propagates and the run fails. -/
theorem C6_counterexample :
    Engine.loadLearningState "2026-02-03T00:00:00.000Z" (Engine.StateFile.malformed "not json") ≠
      Except.ok (Engine.defaultLearningState "2026-02-03T00:00:00.000Z") := by
  intro h
  exact Except.noConfusion h

/-- **C6** (amended).  `loadLearningState` returns the empty default state
only when the file does not exist; an existing well-formed file is returned
as parsed, and an existing malformed file makes the load fail with the
parse error (there is no `try`/`catch` around `JSON.parse`). -/
theorem C6_amended :
    (∀ now, Engine.loadLearningState now .missing = .ok (Engine.defaultLearningState now)) ∧
    (∀ now s, Engine.loadLearningState now (.valid s) = .ok s) ∧
    (∀ now raw, ∃ e, Engine.loadLearningState now (.malformed raw) = .error e) :=
  ⟨fun _ => rfl, fun _ _ => rfl, fun _ _ => ⟨_, rfl⟩⟩

/-- **C9**.  `verify` is idempotent on completed entries: a week whose
`result.avg_imp` is non-null is skipped by the loop guard, leaving every
field of the entry (in particular `result`, `verification`, `learning`,
`next_action`) exactly as it was. -/
theorem C9_theorem (state : Engine.LearningState) (results : List Engine.AnalyzedPost)
    (week : Engine.HypothesisWeek) (r : Engine.WeekResult) (v : ℚ)
    (h1 : week.result = some r) (h2 : r.avg_imp = some v) :
    Engine.verifyWeek state results week = week := by
  unfold Engine.verifyWeek
  have hv : Engine.isVerified week = true := by
    unfold Engine.isVerified
    rw [h1]
    show r.avg_imp.isSome = true
    rw [h2]
    rfl
  rw [hv]
  simp

/-- **C9** (witness): the skip evaluated on a concrete verified entry. -/
theorem C9_witness :
    Engine.verifyWeek (Engine.defaultLearningState "t") [] Engine.cexVerifiedWeek =
      Engine.cexVerifiedWeek :=
  C9_theorem (Engine.defaultLearningState "t") [] Engine.cexVerifiedWeek
    ⟨3, some 5, 10, 1/100, some "p1", some "p2"⟩ 5 rfl rfl

/-- **C7** (counterexample). -/
theorem C7_counterexample :
    Engine.armTrials Engine.cexC7State.approach_scores "how_to" = 1 ∧
    (Engine.verifyWeek Engine.cexC7State [Engine.cexPost] Engine.cexPendingWeek).verification =
      some ⟨true, true, some false, none⟩ := by
  constructor
  · simp [Engine.armTrials, Engine.armLookup, Engine.cexC7State]
  · simp only [Engine.verifyWeek, Engine.isVerified, Engine.cexPendingWeek, Engine.themePostsOf,
      Engine.cexPost, Engine.cexAttribution, Engine.cexC7State, Engine.cexXAS,
      Engine.sortByXASDesc, Engine.armLookup, Engine.defaultLearningState]
    norm_num [List.filter, Engine.cexTF]

/-- **C7** (amended). -/
theorem C7_amended (state : Engine.LearningState) (results : List Engine.AnalyzedPost)
    (week : Engine.HypothesisWeek)
    (hp : Engine.isVerified week = false)
    (hne : Engine.themePostsOf results week ≠ []) :
    (Engine.verifyWeek state results week).verification = some
      { pain_accurate := decide
          (((Engine.themePostsOf results week).map (fun p => p.xas.normalized_xas)).sum /
              ((Engine.themePostsOf results week).length : ℚ) > state.global_stats.avg_xas)
        approach_effective :=
          ((Engine.armLookup state.approach_scores week.approach).map
            (fun p => decide (p.mean > 1/2))).getD false
        expression_worked :=
          (Engine.sortByXASDesc (Engine.themePostsOf results week)).head?.map
            (fun b => decide (b.xas.normalized_xas >
              (((Engine.themePostsOf results week).map (fun p => p.xas.normalized_xas)).sum /
                ((Engine.themePostsOf results week).length : ℚ)) * (6/5)))
        framework_link_value :=
          if week.framework_link_matched then
            some (decide
              (((Engine.themePostsOf results week).map (fun p => p.xas.normalized_xas)).sum /
                ((Engine.themePostsOf results week).length : ℚ) >
               state.global_stats.avg_xas * (4/5)))
          else none } := by
  unfold Engine.verifyWeek
  rw [hp]
  have hE : (Engine.themePostsOf results week).isEmpty = false := by
    rcases h : Engine.themePostsOf results week with _ | ⟨a, l⟩
    · exact absurd h hne
    · rfl
  simp only [Bool.false_eq_true, if_false, hE]
  congr 2
  rcases Engine.armLookup state.approach_scores week.approach with _ | p <;> rfl

/-- **C7** (witness for the amended theorem). -/
theorem C7_witness :
    (Engine.verifyWeek Engine.cexC7State [Engine.cexPost] Engine.cexPendingWeek).verification =
      some ⟨true, true, some false, none⟩ := by
  have h := C7_amended Engine.cexC7State [Engine.cexPost] Engine.cexPendingWeek rfl
    (by simp [Engine.themePostsOf, Engine.cexPost, Engine.cexAttribution, Engine.cexPendingWeek])
  rw [h]
  simp only [Engine.themePostsOf, Engine.cexPendingWeek, Engine.cexPost, Engine.cexAttribution,
    Engine.cexXAS, Engine.cexC7State, Engine.sortByXASDesc, Engine.armLookup,
    Engine.defaultLearningState]
  norm_num [List.filter, Engine.cexTF]

section RecommendLemmas

theorem sampleArms_length (u : ℕ → ℝ) (m : Engine.ArmMap) (k : ℕ) :
    (Engine.sampleArms u m k).1.length = m.length := by
  induction m generalizing k with
  | nil => rfl
  | cons hd tl ih =>
    obtain ⟨name, p⟩ := hd
    simp [Engine.sampleArms, ih]

theorem round3R_mono {x y : ℝ} (h : x ≤ y) : Engine.round3R x ≤ Engine.round3R y := by
  unfold Engine.round3R Engine.jroundR
  have : (⌊x * 1000 + 1/2⌋ : ℤ) ≤ ⌊y * 1000 + 1/2⌋ := by
    apply Int.floor_le_floor
    linarith
  have h2 : ((⌊x * 1000 + 1/2⌋ : ℤ) : ℝ) ≤ ((⌊y * 1000 + 1/2⌋ : ℤ) : ℝ) := by exact_mod_cast this
  linarith

theorem sortBySampleDesc_pairwise (l : List Engine.RankEntry) :
    (Engine.sortBySampleDesc l).Pairwise (fun a b => b.sample ≤ a.sample) := by
  have h := @List.sorted_mergeSort Engine.RankEntry
    (fun a b => decide (b.sample ≤ a.sample))
    (fun a b c hab hbc => by
      simp only [decide_eq_true_eq] at *
      exact le_trans hbc hab)
    (fun a b => by
      simp only [Bool.or_eq_true, decide_eq_true_eq]
      exact le_total b.sample a.sample)
    l
  unfold Engine.sortBySampleDesc
  exact h.imp (fun hab => by simpa using hab)

theorem slotSort_pairwise (l : List Engine.SlotEntry) :
    (l.mergeSort (fun a b => decide (b.mean ≤ a.mean))).Pairwise
      (fun a b => b.mean ≤ a.mean) := by
  have h := @List.sorted_mergeSort Engine.SlotEntry
    (fun a b => decide (b.mean ≤ a.mean))
    (fun a b c hab hbc => by
      simp only [decide_eq_true_eq] at *
      exact le_trans hbc hab)
    (fun a b => by
      simp only [Bool.or_eq_true, decide_eq_true_eq]
      exact le_total b.mean a.mean)
    l
  exact h.imp (fun hab => by simpa using hab)

end RecommendLemmas

/-- **C8** (counterexample).  The persisted Recommendation does not carry a
ranked list or best entry for the variant dimension: two states that differ
only in `variant_scores` (and differ there completely) produce identical
`recommend` output — `recommend` never reads `variant_scores` at all. -/
theorem C8_counterexample :
    Engine.cexC8StateA.variant_scores ≠ Engine.cexC8StateB.variant_scores ∧
    Engine.recommendRun Engine.cexC8StateA (fun _ => 1/2) "t" [] =
      Engine.recommendRun Engine.cexC8StateB (fun _ => 1/2) "t" [] := by
  constructor
  · simp [Engine.cexC8StateA, Engine.cexC8StateB]
  · rfl

/-- **C8** (amended).  `recommend`'s output is entirely independent of the
variant dimension, and of the six dimensions only theme and approach get a
persisted sample-ranked list (one entry per known arm, descending by
sample); the persisted slot ranking is sorted by mean and its entries carry
no sample (the `SlotEntry` type has none); feature and source-type rankings
are not persisted (features contribute only the four best-bucket picks in
`recommended.text_features`). -/
theorem C8_amended :
    (∀ (state : Engine.LearningState) (V : Engine.ArmMap) (u : ℕ → ℝ)
        (now : String) (acc : List String),
      Engine.recommendRun { state with variant_scores := V } u now acc =
        Engine.recommendRun state u now acc) ∧
    (∀ (state : Engine.LearningState) (u : ℕ → ℝ) (now : String) (acc : List String),
      (Engine.recommendBuild state u now acc).theme_ranking.Pairwise
          (fun a b => b.sample ≤ a.sample) ∧
      (Engine.recommendBuild state u now acc).theme_ranking.length =
          state.theme_scores.length ∧
      (Engine.recommendBuild state u now acc).approach_ranking.Pairwise
          (fun a b => b.sample ≤ a.sample) ∧
      (Engine.recommendBuild state u now acc).approach_ranking.length =
          state.approach_scores.length ∧
      (Engine.recommendBuild state u now acc).slot_ranking.Pairwise
          (fun a b => b.mean ≤ a.mean) ∧
      (Engine.recommendBuild state u now acc).slot_ranking.length =
          state.slot_scores.length) := by
  constructor
  · intro state V u now acc
    rfl
  · intro state u now acc
    refine ⟨?_, ?_, ?_, ?_, ?_, ?_⟩
    · exact (sortBySampleDesc_pairwise _).map _
        (fun a b hab => round3R_mono hab)
    · show ((Engine.sortBySampleDesc _).map _).length = _
      rw [List.length_map]
      unfold Engine.sortBySampleDesc
      rw [List.length_mergeSort, sampleArms_length]
    · exact (sortBySampleDesc_pairwise _).map _
        (fun a b hab => round3R_mono hab)
    · show ((Engine.sortBySampleDesc _).map _).length = _
      rw [List.length_map]
      unfold Engine.sortBySampleDesc
      rw [List.length_mergeSort, sampleArms_length]
    · exact slotSort_pairwise _
    · show (List.mergeSort _ _).length = _
      rw [List.length_mergeSort, List.length_map]

section StreamEval

theorem posStrm_pos : ∀ i, 0 < posStrm i := by
  intro i
  unfold posStrm
  rcases h : i % 3 with _ | _ | n <;> norm_num

theorem posStrm_one : posStrm 1 = 1/4 := rfl

theorem posStrm_two : posStrm 2 = 1/2 := rfl

theorem posStrm_four : posStrm 4 = 1/4 := rfl

theorem posStrm_five : posStrm 5 = 1/2 := rfl

theorem cos_two_pi_quarter : Real.cos (2 * Real.pi * (1/4)) = 0 := by
  rw [show (2 : ℝ) * Real.pi * (1/4) = Real.pi / 2 by ring, Real.cos_pi_div_two]

theorem normalRandom_posStrm_zero : Scripts.normalRandom posStrm 0 = 0 := by
  unfold Scripts.normalRandom
  rw [show (0 + 1 : ℕ) = 1 from rfl, posStrm_one, cos_two_pi_quarter, mul_zero]

theorem normalRandom_posStrm_three : Scripts.normalRandom posStrm 3 = 0 := by
  unfold Scripts.normalRandom
  rw [show (3 + 1 : ℕ) = 4 from rfl, posStrm_four, cos_two_pi_quarter, mul_zero]

theorem drawAccept_posStrm_zero (c : ℝ) (fuel : ℕ) :
    Scripts.drawAccept c posStrm (fuel + 1) 0 = some (0, 1, 2) := by
  unfold Scripts.drawAccept
  rw [normalRandom_posStrm_zero]
  norm_num

theorem drawAccept_posStrm_three (c : ℝ) (fuel : ℕ) :
    Scripts.drawAccept c posStrm (fuel + 1) 3 = some (0, 1, 5) := by
  unfold Scripts.drawAccept
  rw [normalRandom_posStrm_three]
  norm_num

theorem gammaLoop_posStrm_zero (d c : ℝ) (fuel : ℕ) :
    Scripts.gammaLoop d c posStrm (fuel + 1) 0 = some (d, 3) := by
  unfold Scripts.gammaLoop
  rw [drawAccept_posStrm_zero]
  norm_num [posStrm_two]

theorem gammaLoop_posStrm_three (d c : ℝ) (fuel : ℕ) :
    Scripts.gammaLoop d c posStrm (fuel + 1) 3 = some (d, 6) := by
  unfold Scripts.gammaLoop
  rw [drawAccept_posStrm_three]
  norm_num [posStrm_five]

theorem sampleGamma_posStrm_two (fuel : ℕ) :
    Scripts.sampleGamma posStrm (fuel + 1) 2 0 = some (5/3, 3) := by
  unfold Scripts.sampleGamma
  rw [if_neg (by norm_num : ¬ ((2:ℝ) < 1))]
  rw [gammaLoop_posStrm_zero]
  norm_num

theorem sampleGamma_posStrm_one (fuel : ℕ) :
    Scripts.sampleGamma posStrm (fuel + 1) 1 3 = some (2/3, 6) := by
  unfold Scripts.sampleGamma
  rw [if_neg (by norm_num : ¬ ((1:ℝ) < 1))]
  rw [gammaLoop_posStrm_three]
  norm_num

theorem scriptsBeta_posStrm_eval :
    Scripts.sampleBeta posStrm 3 2 1 0 = some (5/7, 6) := by
  have h2 : Scripts.sampleGamma posStrm 3 2 0 = some (5/3, 3) := sampleGamma_posStrm_two 2
  have h1 : Scripts.sampleGamma posStrm 3 1 3 = some (2/3, 6) := sampleGamma_posStrm_one 2
  unfold Scripts.sampleBeta
  rw [if_neg (by norm_num : ¬ ((2:ℝ) ≤ 0 ∨ (1:ℝ) ≤ 0))]
  simp only [h2, h1]
  norm_num

theorem engineBeta_posStrm_eval :
    Engine.sampleBeta ⟨2, 1, 50, 2/3⟩ posStrm 0 = 2/3 := by
  unfold Engine.sampleBeta
  rw [if_neg (by push_cast; norm_num)]
  rw [show (0 + 1 : ℕ) = 1 from rfl, posStrm_one, cos_two_pi_quarter]
  push_cast
  norm_num

end StreamEval

/-- **C2** (counterexample).  The learning engine's own `sampleBeta` (used
by `recommend` for Thompson ranking) is *not* the Gamma-ratio reference
algorithm: on the same uniform stream and the same shape parameters
`(alpha, beta) = (2, 1)` the scripts' Gamma-ratio sampler returns `5/7`
while the engine's normal-approximation sampler returns `2/3`. -/
theorem C2_counterexample :
    (Scripts.sampleBeta posStrm 3 2 1 0).map Prod.fst ≠
      some (Engine.sampleBeta ⟨2, 1, 50, 2/3⟩ posStrm 0) := by
  rw [scriptsBeta_posStrm_eval, engineBeta_posStrm_eval]
  norm_num [Option.map_some']

/-- **C2** (amended).  The `sampleBeta` of `auto_post.ts` and
`daily_generate.ts` (verbatim-identical code, embedded once as
`Scripts.sampleBeta`) does follow the Gamma-ratio reference: every
non-degenerate result is `gammaA / (gammaA + gammaB)` for the two
Marsaglia-Tsang Gamma draws taken sequentially from the same stream (with
the degenerate `0.5` when the Gamma sum is zero), and shape parameters
`<= 0` short-circuit to `0.5` without consuming the stream.  The engine's
own `sampleBeta` in `analyze_hypothesis.ts` is a different algorithm (the
clamped normal approximation), so *not every* implementation in the system
is equivalent to the reference. -/
theorem C2_amended :
    (∀ (u : ℕ → ℝ) (fuel : ℕ) (alpha beta : ℝ) (k : ℕ) (r : ℝ) (k2 : ℕ),
      ¬ (alpha ≤ 0 ∨ beta ≤ 0) →
      Scripts.sampleBeta u fuel alpha beta k = some (r, k2) →
      ∃ gA kA gB, Scripts.sampleGamma u fuel alpha k = some (gA, kA) ∧
        Scripts.sampleGamma u fuel beta kA = some (gB, k2) ∧
        ((gA + gB = 0 ∧ r = 0.5) ∨ (gA + gB ≠ 0 ∧ r = gA / (gA + gB)))) ∧
    (∀ (u : ℕ → ℝ) (fuel : ℕ) (alpha beta : ℝ) (k : ℕ),
      (alpha ≤ 0 ∨ beta ≤ 0) →
      Scripts.sampleBeta u fuel alpha beta k = some (0.5, k)) := by
  constructor
  · intro u fuel alpha beta k r k2 hne heq
    unfold Scripts.sampleBeta at heq
    rw [if_neg hne] at heq
    split at heq
    · exact absurd heq (by simp)
    · rename_i ga k1 hA
      split at heq
      · exact absurd heq (by simp)
      · rename_i gb kb hB
        by_cases hz : ga + gb = 0
        · rw [if_pos hz] at heq
          obtain ⟨h1, h2⟩ := Prod.mk.injEq .. ▸ Option.some.inj heq
          exact ⟨ga, k1, gb, hA, h2 ▸ hB, Or.inl ⟨hz, h1.symm⟩⟩
        · rw [if_neg hz] at heq
          obtain ⟨h1, h2⟩ := Prod.mk.injEq .. ▸ Option.some.inj heq
          exact ⟨ga, k1, gb, hA, h2 ▸ hB, Or.inr ⟨hz, h1.symm⟩⟩
  · intro u fuel alpha beta k h
    unfold Scripts.sampleBeta
    rw [if_pos h]

/-- **C2** (witness for the amended theorem): the degenerate rule evaluated
at `alpha = 0`. -/
theorem C2_witness :
    Scripts.sampleBeta posStrm 3 0 1 0 = some (0.5, 0) :=
  C2_amended.2 posStrm 3 0 1 0 (Or.inl le_rfl)

section GammaPositivity

/-- The inner rejection loop only accepts `v > 0`. -/
theorem drawAccept_v_pos (c : ℝ) (u : ℕ → ℝ) :
    ∀ (fuel k : ℕ) (x v : ℝ) (k' : ℕ),
      Scripts.drawAccept c u fuel k = some (x, v, k') → 0 < v := by
  intro fuel
  induction fuel with
  | zero => intro k x v k' h; exact absurd h (by simp [Scripts.drawAccept])
  | succ n ih =>
    intro k x v k' h
    unfold Scripts.drawAccept at h
    dsimp only at h
    split at h
    · exact ih _ _ _ _ h
    · rename_i hv
      simp only [Option.some.injEq, Prod.mk.injEq] at h
      obtain ⟨hx, hv2, hk⟩ := h
      rw [← hv2]
      exact not_le.mp hv

/-- Every value the Marsaglia–Tsang acceptance loop returns is positive
when `d > 0`. -/
theorem gammaLoop_pos (d c : ℝ) (u : ℕ → ℝ) (hd : 0 < d) :
    ∀ (fuel k : ℕ) (g : ℝ) (k' : ℕ),
      Scripts.gammaLoop d c u fuel k = some (g, k') → 0 < g := by
  intro fuel
  induction fuel with
  | zero => intro k g k' h; exact absurd h (by simp [Scripts.gammaLoop])
  | succ n ih =>
    intro k g k' h
    unfold Scripts.gammaLoop at h
    split at h
    · exact absurd h (by simp)
    · rename_i x v0 k1 hDA
      have hv0 : 0 < v0 := drawAccept_v_pos c u _ _ _ _ _ hDA
      dsimp only at h
      split at h
      · simp only [Option.some.injEq, Prod.mk.injEq] at h
        obtain ⟨h1, h2⟩ := h
        rw [← h1]
        positivity
      · split at h
        · simp only [Option.some.injEq, Prod.mk.injEq] at h
          obtain ⟨h1, h2⟩ := h
          rw [← h1]
          positivity
        · exact ih _ _ _ h

/-- On an everywhere-positive stream, every Gamma draw is positive. -/
theorem sampleGamma_pos (u : ℕ → ℝ) (hu : ∀ i, 0 < u i) :
    ∀ (fuel : ℕ) (shape : ℝ) (k : ℕ) (g : ℝ) (k' : ℕ),
      Scripts.sampleGamma u fuel shape k = some (g, k') → 0 < g := by
  intro fuel
  induction fuel with
  | zero => intro shape k g k' h; exact absurd h (by simp [Scripts.sampleGamma])
  | succ n ih =>
    intro shape k g k' h
    unfold Scripts.sampleGamma at h
    split at h
    · rename_i hs
      split at h
      · exact absurd h (by simp)
      · rename_i g0 k1 h0
        simp only [Option.some.injEq, Prod.mk.injEq] at h
        obtain ⟨h1, h2⟩ := h
        rw [← h1]
        exact mul_pos (ih _ _ _ _ h0) (Real.rpow_pos_of_pos (hu k1) _)
    · rename_i hs
      have h1 : (1:ℝ) ≤ shape := le_of_not_lt hs
      exact gammaLoop_pos _ _ u (by linarith) _ _ _ _ h
  
end GammaPositivity

/-- **C4**.  Both samplers stay in `[0, 1]`: the engine's clamped
normal-approximation `sampleBeta` always returns a value in `[0, 1]` and
returns the neutral `0.5` whenever `alpha ≤ 0` or `beta ≤ 0`; the scripts'
Gamma-ratio `sampleBeta`, on any everywhere-positive uniform stream and
any fuel, returns (when its rejection loops terminate) a value in `[0, 1]`,
with the neutral `0.5` on non-positive shapes (without touching the
stream) and on a zero Gamma sum. -/
theorem C4_theorem :
    (∀ (p : Engine.BetaParams) (u : ℕ → ℝ) (k : ℕ),
      0 ≤ Engine.sampleBeta p u k ∧ Engine.sampleBeta p u k ≤ 1) ∧
    (∀ (p : Engine.BetaParams) (u : ℕ → ℝ) (k : ℕ),
      p.alpha ≤ 0 ∨ p.beta ≤ 0 → Engine.sampleBeta p u k = 0.5) ∧
    (∀ (u : ℕ → ℝ) (fuel : ℕ) (alpha beta : ℝ) (k : ℕ) (r : ℝ) (k2 : ℕ),
      (∀ i, 0 < u i) → Scripts.sampleBeta u fuel alpha beta k = some (r, k2) →
      0 ≤ r ∧ r ≤ 1) ∧
    (∀ (u : ℕ → ℝ) (fuel : ℕ) (alpha beta : ℝ) (k : ℕ),
      alpha ≤ 0 ∨ beta ≤ 0 → Scripts.sampleBeta u fuel alpha beta k = some (0.5, k)) := by
  refine ⟨?_, ?_, ?_, ?_⟩
  · intro p u k
    unfold Engine.sampleBeta
    split
    · norm_num
    · exact ⟨le_min (by norm_num) (le_max_left _ _), min_le_left _ _⟩
  · intro p u k h
    unfold Engine.sampleBeta
    have h' : (p.alpha : ℝ) ≤ 0 ∨ (p.beta : ℝ) ≤ 0 := by
      rcases h with h | h
      · exact Or.inl (by exact_mod_cast h)
      · exact Or.inr (by exact_mod_cast h)
    rw [if_pos h']
  · intro u fuel alpha beta k r k2 hu heq
    unfold Scripts.sampleBeta at heq
    split at heq
    · simp only [Option.some.injEq, Prod.mk.injEq] at heq
      obtain ⟨h1, h2⟩ := heq
      rw [← h1]
      norm_num
    · split at heq
      · exact absurd heq (by simp)
      · rename_i ga k1 hA
        split at heq
        · exact absurd heq (by simp)
        · rename_i gb kb hB
          have hga : 0 < ga := sampleGamma_pos u hu _ _ _ _ _ hA
          have hgb : 0 < gb := sampleGamma_pos u hu _ _ _ _ _ hB
          split at heq
          · simp only [Option.some.injEq, Prod.mk.injEq] at heq
            obtain ⟨h1, h2⟩ := heq
            rw [← h1]
            norm_num
          · simp only [Option.some.injEq, Prod.mk.injEq] at heq
            obtain ⟨h1, h2⟩ := heq
            rw [← h1]
            constructor
            · positivity
            · rw [div_le_one (by linarith)]
              linarith
  · intro u fuel alpha beta k h
    unfold Scripts.sampleBeta
    rw [if_pos h]

/-- **C4** (witness): both samplers evaluated at concrete inputs — the
engine sampler at `(2, 1)` on the concrete stream, its degenerate guard at
`alpha = 0`; the scripts sampler's concrete run
`sampleBeta(2, 1) = 5/7 ∈ [0, 1]` and its degenerate guard. -/
theorem C4_witness :
    (0 ≤ Engine.sampleBeta ⟨2, 1, 50, 2/3⟩ posStrm 0 ∧
      Engine.sampleBeta ⟨2, 1, 50, 2/3⟩ posStrm 0 ≤ 1) ∧
    Engine.sampleBeta ⟨0, 7/10, 0, 0⟩ posStrm 0 = 0.5 ∧
    (0 ≤ (5/7 : ℝ) ∧ (5/7 : ℝ) ≤ 1) ∧
    Scripts.sampleBeta posStrm 3 0 1 0 = some (0.5, 0) :=
  ⟨C4_theorem.1 ⟨2, 1, 50, 2/3⟩ posStrm 0,
    C4_theorem.2.1 ⟨0, 7/10, 0, 0⟩ posStrm 0 (Or.inl le_rfl),
    C4_theorem.2.2.1 posStrm 3 2 1 0 (5/7) 6 posStrm_pos scriptsBeta_posStrm_eval,
    C4_theorem.2.2.2 posStrm 3 0 1 0 (Or.inl le_rfl)⟩
